import Mathlib

/-!
Verification of the MultiHarp camera device adapter's record pipeline
(`src/MHCam_withgalvo/MHCam.cpp`): record decoding (`Interpret_TTTR`),
timebase reconstruction and the line/frame state machine (`TranslateRecord`),
pixel mapping (`GetPixnumInLine`), saturating pixel accumulation, the
acquisition loop's per-record dispatch (`start_acq`), and buffer resizing
(`ResizeImageBuffer` / `OnPixelType`).

Modelling conventions:
* C machine integers are embedded as `Nat` (unsigned) or `Int` (signed), with
  an explicit `% 2 ^ 32` / `% 2 ^ 64` wherever the C code performs wrapping
  unsigned arithmetic.  The cast `(int)` of a `uint64_t` is `toInt32`
  (two's-complement wrap, as MSVC implements it).  C `int`/`long` division
  and remainder truncate toward zero: `Int.tdiv` / `Int.tmod`.
* Steps of the pipeline whose C realisation is undefined behaviour
  (division by zero; a pixel-buffer access at an index that is negative or
  at least the number of allocated samples) are modelled as `none`.
* The pixel buffer is the flat array of `Width*Height` samples owned by
  `img_`; one list entry per sample, the sample width (8/16 bit) being
  selected by the `PixelType` property exactly as `TranslateRecord` does.
* Logging statements and the unused local `nrPixels` of `TranslateRecord`
  have no observable effect and are omitted.
-/

/-- `2 ^ 32`, the modulus of C `unsigned int` arithmetic. -/
def U32 : Nat := 2 ^ 32

/-- `2 ^ 64`, the modulus of C `uint64_t` arithmetic. -/
def U64 : Nat := 2 ^ 64

/-- Two's-complement reinterpretation of a value as a 32-bit signed `int`,
as performed by the cast `(int)pn` in `GetPixnumInLine`. -/
def toInt32 (n : Nat) : Int :=
  if n % U32 < 2 ^ 31 then ((n % U32 : Nat) : Int)
  else ((n % U32 : Nat) : Int) - (U32 : Int)

/-- Wrapping `uint64_t` subtraction `a - b`. -/
def sub64 (a b : Nat) : Nat :=
  (a + U64 - b % U64) % U64

/-- The four fields extracted from one 32-bit T3 record. -/
structure TTTRFields where
  sync : Nat
  tcspc : Nat
  channel : Nat
  special : Bool
deriving Repr, DecidableEq

/-- `MH_camera::Interpret_TTTR` (MHCam.cpp:2364-2383): bit-field extraction of
one raw MultiHarp T3 record, layout `special:1, channel:6, dtime:15, nsync:10`. -/
def Interpret_TTTR (record : Nat) : TTTRFields :=
  { sync := (record >>> 0) &&& 0x3ff
    tcspc := (record >>> 10) &&& 0x7fff
    channel := (record >>> 25) &&& 0x3f
    special := (record >>> 31) &&& 0x1 == 1 }

/-- The configuration snapshot a record is processed under: geometry
properties, pixel type, and the hardware sync resolution
(`MeasDesc_GlobalResolution_`, in ps). -/
structure CamConfig where
  cameraCCDXSize : Nat
  cameraCCDYSize : Nat
  n_scanPixels_X : Nat
  n_scanPixels_Y : Nat
  n_beams_X : Nat
  n_beams_Y : Nat
  binSize : Nat
  pixelType : String
  MeasDesc_GlobalResolution : Nat
deriving Repr, DecidableEq

/-- The mutable acquisition trackers of `MH_camera` used by the record
pipeline.  `overflow_counter_` is a C `unsigned int`, the line timestamps and
the dwell time are `uint64_t`, `current_line_` and `n_frame_tracker_` are C
`int`. -/
structure AcqState where
  overflow_counter : Nat
  last_line_start : Nat
  last_line_end : Nat
  current_line : Int
  frame_active : Bool
  pixel_dwelltime_ps : Nat
  n_frame_tracker : Int
deriving Repr, DecidableEq

/-- The timestamp computation of `TranslateRecord` (MHCam.cpp:2395-2396):
`overflowtime = overflow_counter_ * 1024` and
`timestamp_ps = (nsync + overflowtime) * MeasDesc_GlobalResolution_`,
all in `uint64_t` arithmetic. -/
def timestampPs (cfg : CamConfig) (st : AcqState) (nsync : Nat) : Nat :=
  let overflowtime := (st.overflow_counter * 1024) % U64
  (((nsync + overflowtime) % U64) * cfg.MeasDesc_GlobalResolution) % U64

/-- `MH_camera::GetPixnumInLine` (MHCam.cpp:2498-2516).  Divides the time
since the line start by the pixel dwell time and by `n_beams_X_`, then clamps
the result at `cameraCCDXSize_ - 1`.  `none` models the undefined behaviour
of dividing by zero. -/
def GetPixnumInLine (cfg : CamConfig) (st : AcqState)
    (timestamp linestart_timestamp : Nat) : Option Int :=
  let time_into_line_ps := sub64 timestamp linestart_timestamp
  if st.pixel_dwelltime_ps = 0 then none
  else
    let pn := time_into_line_ps / st.pixel_dwelltime_ps
    if cfg.n_beams_X = 0 then none
    else
      let pixnum := (toInt32 pn).tdiv cfg.n_beams_X
      if pixnum ≥ (cfg.cameraCCDXSize : Int) then some ((cfg.cameraCCDXSize : Int) - 1)
      else some pixnum

/-- The multibeam descanning shift of `TranslateRecord` (MHCam.cpp:2443-2448):
`tmpchan = 5 - channel`, horizontal shift `(tmpchan / n_beams_Y_) * n_scanPixels_X_`,
vertical shift `(tmpchan % n_beams_Y_) * n_scanPixels_Y_` (C `int` arithmetic). -/
def beamShift (cfg : CamConfig) (channel : Nat) : Int × Int :=
  let tmpchan : Int := 5 - (channel : Int)
  ((tmpchan.tdiv cfg.n_beams_Y) * cfg.n_scanPixels_X,
   (tmpchan.tmod cfg.n_beams_Y) * cfg.n_scanPixels_Y)

/-- The per-sample update of `TranslateRecord` (MHCam.cpp:2476-2486):
`if (rawShorts[target_px] != maxValue) rawShorts[target_px] += 1;`, the store
wrapping at the sample width `maxValue + 1`. -/
def satIncr (maxValue v : Nat) : Nat :=
  if v ≠ maxValue then (v + 1) % (maxValue + 1) else v

/-- One saturating write into the flat sample buffer.  `none` models the
undefined behaviour of an access outside the allocated samples (the code
performs no bounds check before `rawShorts[target_px]`). -/
def bufIncrement (buf : List Nat) (target_px : Int) (maxValue : Nat) :
    Option (List Nat) :=
  if 0 ≤ target_px ∧ target_px.toNat < buf.length then
    some (buf.set target_px.toNat (satIncr maxValue (buf.getD target_px.toNat 0)))
  else none

/-- `MH_camera::TranslateRecord` (MHCam.cpp:2385-2496).  Decodes one record;
special records drive the line/frame state machine and the overflow counter
(`switch (channel)`, cases 1, 2, 3/4, 63), ordinary records are mapped to a
pixel and accumulated when not in flyback (`last_line_end_ < last_line_start_`),
not on the non-descanned channel 6, and `current_line_ >= 0`. -/
def TranslateRecord (cfg : CamConfig) (st : AcqState) (buf : List Nat)
    (val : Nat) : Option (AcqState × List Nat) :=
  let f := Interpret_TTTR val
  let timestamp_ps := timestampPs cfg st f.sync
  if f.special then
    if f.channel = 1 then
      -- line end: record it and recompute the dwell time
      if cfg.cameraCCDXSize = 0 then none
      else
        some ({ st with
                  last_line_end := timestamp_ps
                  pixel_dwelltime_ps :=
                    sub64 timestamp_ps st.last_line_start / cfg.cameraCCDXSize },
              buf)
    else if f.channel = 2 then
      -- line start: advance the line counter while a frame is active
      let cl := if st.frame_active then st.current_line + 1 else st.current_line
      let fa := if cl > (cfg.cameraCCDYSize : Int) then false else st.frame_active
      some ({ st with last_line_start := timestamp_ps, current_line := cl,
                      frame_active := fa }, buf)
    else if f.channel = 3 ∨ f.channel = 4 then
      -- frame clock
      some ({ st with current_line := -1, frame_active := true,
                      n_frame_tracker := st.n_frame_tracker + 1 }, buf)
    else if f.channel = 63 then
      -- sync counter overflow marker
      some ({ st with overflow_counter := (st.overflow_counter + f.sync) % U32 },
            buf)
    else some (st, buf)
  else
    if st.last_line_end < st.last_line_start ∧ f.channel ≠ 6 then
      if st.current_line ≥ 0 then
        if cfg.n_beams_Y = 0 then none
        else
          let shift := beamShift cfg f.channel
          match GetPixnumInLine cfg st timestamp_ps st.last_line_start with
          | none => none
          | some base =>
            let x_px := base + shift.1
            let y_px := st.current_line + shift.2
            let target_px := x_px + y_px * (cfg.cameraCCDXSize : Int)
            if cfg.pixelType = "8bit" then
              match bufIncrement buf target_px 255 with
              | none => none
              | some buf2 => some (st, buf2)
            else if cfg.pixelType = "16bit" then
              match bufIncrement buf target_px 65535 with
              | none => none
              | some buf2 => some (st, buf2)
            else some (st, buf)
      else some (st, buf)
    else some (st, buf)

/-- `chan_shift` of `start_acq` (MHCam.cpp:2948). -/
def chan_shift : Nat := 25

/-- `chan_mask` of `start_acq` (MHCam.cpp:2947). -/
def chan_mask : Nat := 0x3f

/-- `MAX_N_CHANNELS` (MHCam.h:55). -/
def MAX_N_CHANNELS : Nat := 8

/-- The channel field the acquisition loop extracts before dispatching a
record (MHCam.cpp:3058). -/
def chanInRecord (record : Nat) : Nat :=
  (record >>> chan_shift) &&& chan_mask

/-- One iteration of the per-record loop body of `start_acq`
(MHCam.cpp:3056-3063): extract the channel field, run `TranslateRecord`,
then bump `live_rates[chan]` whenever `chan < MAX_N_CHANNELS`
(`live_rates` entries are C `unsigned int`). -/
def acqStep (cfg : CamConfig) (s : AcqState × List Nat × List Nat)
    (record : Nat) : Option (AcqState × List Nat × List Nat) :=
  let chan := chanInRecord record
  match TranslateRecord cfg s.1 s.2.1 record with
  | none => none
  | some (st2, buf2) =>
    let rates := s.2.2
    let rates2 :=
      if chan < MAX_N_CHANNELS then
        rates.set chan ((rates.getD chan 0 + 1) % U32)
      else rates
    some (st2, buf2, rates2)

/-- Dispatching a batch of records through `TranslateRecord` alone, in
arrival order. -/
def translateAll (cfg : CamConfig) (s : AcqState × List Nat)
    (records : List Nat) : Option (AcqState × List Nat) :=
  records.foldlM (fun p r => TranslateRecord cfg p.1 p.2 r) s

/-- Dispatching a batch of records through the full `start_acq` loop body, in
arrival order. -/
def processRecords (cfg : CamConfig) (s : AcqState × List Nat × List Nat)
    (records : List Nat) : Option (AcqState × List Nat × List Nat) :=
  records.foldlM (acqStep cfg) s

/-- The tracker reset at the top of `start_acq` (MHCam.cpp:2936-2940).  The
dwell time and the frame tracker are not reset there. -/
def startAcqReset (st : AcqState) : AcqState :=
  { st with overflow_counter := 0, current_line := -1, frame_active := false,
            last_line_start := 0, last_line_end := 0 }

/-- The `live_rates` reset at the top of `start_acq` (MHCam.cpp:2942-2944). -/
def resetRates : List Nat := List.replicate MAX_N_CHANNELS 0

/-- The byte depth `ResizeImageBuffer` derives from the `PixelType` property
(MHCam.cpp:2322-2332): 1 for "8bit", 2 for "16bit", and the initial value 0
for anything else. -/
def byteDepthFor (pixelType : String) : Nat :=
  if pixelType = "8bit" then 1 else if pixelType = "16bit" then 2 else 0

/-- `MH_camera::ResizeImageBuffer` (MHCam.cpp:2310-2336): the
`(width, height, byteDepth)` triple passed to `img_.Resize`.  `none` models
the undefined division by a zero bin size. -/
def ResizeImageBuffer (cfg : CamConfig) : Option (Nat × Nat × Nat) :=
  if cfg.binSize = 0 then none
  else some (cfg.cameraCCDXSize / cfg.binSize, cfg.cameraCCDYSize / cfg.binSize,
             byteDepthFor cfg.pixelType)

/-- Return codes of the `OnPixelType` property handler. -/
inductive DeviceRet where
  | ok
  | errUnknownMode
deriving Repr, DecidableEq

/-- The observable outcome of `OnPixelType` on `MM::AfterSet`: the byte depth
passed to `img_.Resize`, the property value left behind, `bitDepth_`, and the
return code. -/
structure PixelTypeOutcome where
  resizeDepth : Nat
  propValue : String
  bitDepth : Nat
  ret : DeviceRet
deriving Repr, DecidableEq

/-- `MH_camera::OnPixelType`, `MM::AfterSet` branch when not capturing
(MHCam.cpp:1656-1687): "8bit" and "16bit" resize to 1 resp. 2 bytes per
sample; any other value falls into the error branch, which resizes to 1 byte
per sample, writes "8bit" back into the property, sets `bitDepth_ = 8` and
returns `ERR_UNKNOWN_MODE`. -/
def OnPixelTypeAfterSet (pixelType : String) : PixelTypeOutcome :=
  if pixelType = "8bit" then
    { resizeDepth := 1, propValue := "8bit", bitDepth := 8, ret := .ok }
  else if pixelType = "16bit" then
    { resizeDepth := 2, propValue := "16bit", bitDepth := 16, ret := .ok }
  else
    { resizeDepth := 1, propValue := "8bit", bitDepth := 8, ret := .errUnknownMode }

/-- The configuration the constructor establishes (MHCam.cpp:121-179 and the
`PixelType` property default, MHCam.cpp:281): 120x80 scan points, a 2x3 beam
array, composite CCD size 240x240, binning 1, 16-bit pixels, and the sync
resolution 12618 ps. -/
def cfg0 : CamConfig :=
  { cameraCCDXSize := 240, cameraCCDYSize := 240, n_scanPixels_X := 120,
    n_scanPixels_Y := 80, n_beams_X := 2, n_beams_Y := 3, binSize := 1,
    pixelType := "16bit", MeasDesc_GlobalResolution := 12618 }

/-- The tracker state the constructor establishes (MHCam.cpp:168-179). -/
def st0 : AcqState :=
  { overflow_counter := 0, last_line_start := 0,
    last_line_end := 100000000000000000, current_line := -99,
    frame_active := false, pixel_dwelltime_ps := 100000000, n_frame_tracker := 0 }

/-- A zeroed sample buffer of the composite size of `cfg0`. -/
def buf0 : List Nat := List.replicate (240 * 240) 0

/-- A record sequence reachable from the post-`start_acq` state: frame start,
line start at sync 5, line end at sync 5 (same timestamp, so the recomputed
dwell time is 0), line start at sync 6, then a photon on channel 5. -/
def traceC3 : List Nat := [0x86000000, 0x84000005, 0x82000005, 0x84000006, 0x0A000007]

/-- A small configuration within the host's property limits (scan points at
the lower limit 16, a single beam): composite CCD size 16x16. -/
def cfgSmall : CamConfig :=
  { cameraCCDXSize := 16, cameraCCDYSize := 16, n_scanPixels_X := 16,
    n_scanPixels_Y := 16, n_beams_X := 1, n_beams_Y := 1, binSize := 1,
    pixelType := "16bit", MeasDesc_GlobalResolution := 12618 }

/-- A zeroed sample buffer of the composite size of `cfgSmall`. -/
def bufSmall : List Nat := List.replicate (16 * 16) 0

/-- A record sequence reachable from the post-`start_acq` state: one frame
start followed by 18 line starts, one more than the 16 composite lines plus
the frame clock's `-1`, which drives `current_line_` to 17 and turns
`frame_active_` off. -/
def traceC6 : List Nat := 0x86000000 :: List.replicate 18 0x84000005

/-- The marker sequence of the frame/line state machine scenario: frame
start, line start (sync 2), a channel-5 photon (sync 3), line end (sync 10),
line start (sync 12), a channel-5 photon (sync 13), line end (sync 20). -/
def traceC5 : List Nat :=
  [0x86000000, 0x84000002, 0x0A000003, 0x8200000A, 0x8400000C, 0x0A00000D, 0x82000014]

/-- An acquisition state in the middle of line 0 of an active frame, with a
10 ps dwell time and the line started at timestamp 0. -/
def stC4 : AcqState :=
  { overflow_counter := 0, last_line_start := 0, last_line_end := 0,
    current_line := 0, frame_active := true, pixel_dwelltime_ps := 10,
    n_frame_tracker := 1 }

-- ------------------------------------------------------------------
-- C2
-- ------------------------------------------------------------------

/-- C2 counterexample: the raw record `0x82000005` has only bit 25 set in its
channel field, so it decodes to channel 1, not channel 16 as claimed. -/
theorem C2_example_channel_is_one :
    (Interpret_TTTR 0x82000005).channel = 1 ∧
    (Interpret_TTTR 0x82000005).channel ≠ 16 := by
  decide

/-- C2 (amended): decoding extracts sync from bits [0:10), fine_time from
bits [10:25), channel from bits [25:31) and special from bit 31; in
particular `0x82000005` decodes to special=true, channel=1, fine_time=0,
sync=5. -/
theorem C2_decode_bit_layout (record : Nat) :
    Interpret_TTTR record =
      { sync := record % 2 ^ 10
        tcspc := record / 2 ^ 10 % 2 ^ 15
        channel := record / 2 ^ 25 % 2 ^ 6
        special := record / 2 ^ 31 % 2 == 1 } ∧
    Interpret_TTTR 0x82000005 =
      { sync := 5, tcspc := 0, channel := 1, special := true } := by
  constructor
  · have h10 : (0x3ff : Nat) = 2 ^ 10 - 1 := rfl
    have h15 : (0x7fff : Nat) = 2 ^ 15 - 1 := rfl
    have h6 : (0x3f : Nat) = 2 ^ 6 - 1 := rfl
    simp only [Interpret_TTTR, h10, h15, h6, Nat.shiftRight_eq_div_pow,
      Nat.and_pow_two_sub_one_eq_mod, Nat.and_one_is_mod, pow_zero,
      Nat.div_one, TTTRFields.mk.injEq]
  · decide

-- ------------------------------------------------------------------
-- C1
-- ------------------------------------------------------------------

/-- C1: for every record processed (overflow counter being a 32-bit value),
the absolute timestamp is `(sync_count + overflow_counter*1024) *
sync_resolution_ps` in `uint64_t` arithmetic; and an overflow marker record
(special = true, channel 63) adds the sync value it carries to the overflow
counter while leaving the line/frame state and the pixel buffer unchanged. -/
theorem C1_timestamp_and_overflow_marker (cfg : CamConfig) (st : AcqState)
    (buf : List Nat) (nsync val : Nat)
    (hof : st.overflow_counter < 2 ^ 32) (hns : nsync < 2 ^ 32)
    (hspec : (Interpret_TTTR val).special = true)
    (hch : (Interpret_TTTR val).channel = 63)
    (hadd : st.overflow_counter + (Interpret_TTTR val).sync < 2 ^ 32) :
    timestampPs cfg st nsync =
      ((nsync + st.overflow_counter * 1024) * cfg.MeasDesc_GlobalResolution)
        % 2 ^ 64 ∧
    TranslateRecord cfg st buf val =
      some ({ st with overflow_counter :=
                st.overflow_counter + (Interpret_TTTR val).sync }, buf) := by
  have h1 : st.overflow_counter * 1024 < 2 ^ 64 := by
    have : st.overflow_counter * 1024 < 2 ^ 32 * 1024 :=
      (Nat.mul_lt_mul_right (by norm_num)).mpr hof
    calc st.overflow_counter * 1024 < 2 ^ 32 * 1024 := this
      _ ≤ 2 ^ 64 := by norm_num
  have h2 : nsync + st.overflow_counter * 1024 < 2 ^ 64 := by
    have : nsync + st.overflow_counter * 1024 < 2 ^ 32 + 2 ^ 32 * 1024 := by
      have := (Nat.mul_lt_mul_right (show 0 < 1024 by norm_num)).mpr hof
      omega
    calc nsync + st.overflow_counter * 1024 < 2 ^ 32 + 2 ^ 32 * 1024 := this
      _ ≤ 2 ^ 64 := by norm_num
  constructor
  · simp only [timestampPs, U64, Nat.mod_eq_of_lt h1, Nat.mod_eq_of_lt h2]
  · have hadd2 : st.overflow_counter + (Interpret_TTTR val).sync < 4294967296 :=
      hadd.trans_eq (by norm_num : (2 : Nat) ^ 32 = 4294967296)
    simp [TranslateRecord, hspec, hch, U32, Nat.mod_eq_of_lt hadd2]

/-- C1 witness: the constructor state and the concrete overflow marker
`0xFE000007` (special, channel 63, sync delta 7). -/
theorem C1_timestamp_and_overflow_marker_witness :
    timestampPs cfg0 st0 3 =
      ((3 + st0.overflow_counter * 1024) * cfg0.MeasDesc_GlobalResolution)
        % 2 ^ 64 ∧
    TranslateRecord cfg0 st0 [] 0xFE000007 =
      some ({ st0 with overflow_counter :=
                st0.overflow_counter + (Interpret_TTTR 0xFE000007).sync }, []) :=
  C1_timestamp_and_overflow_marker cfg0 st0 [] 3 0xFE000007 (by decide)
    (by decide) (by decide) (by decide) (by decide)

-- ------------------------------------------------------------------
-- C7
-- ------------------------------------------------------------------

/-- Iterating the saturating increment from a value within the sample range
yields exactly `min (v + n) maxValue`: it saturates and never wraps. -/
theorem satIncr_iterate (maxValue n : Nat) :
    ∀ v, v ≤ maxValue → (satIncr maxValue)^[n] v = min (v + n) maxValue := by
  induction n with
  | zero => intro v h; simp; omega
  | succ n ih =>
    intro v h
    rw [Function.iterate_succ_apply]
    rcases Nat.eq_or_lt_of_le h with he | hlt
    · have hs : satIncr maxValue v = v := by simp [satIncr, he]
      rw [hs, ih v h]; omega
    · have hs : satIncr maxValue v = v + 1 := by
        have hne : v ≠ maxValue := Nat.ne_of_lt hlt
        simp [satIncr, hne, Nat.mod_eq_of_lt (by omega : v + 1 < maxValue + 1)]
      rw [hs, ih (v + 1) hlt]; omega

/-- C7: pixel accumulation is a saturating add-one.  A sample already at the
ceiling (255 for 8-bit, 65535 for 16-bit) is left unchanged, any other
sample increases by exactly one, and `n` repeated increments of an in-range
sample give `min (v + n) ceiling` — no wraparound and no error outcome. -/
theorem C7_saturating_accumulation (v w n m : Nat) (h8 : v ≤ 255)
    (h16 : w ≤ 65535) :
    (v = 255 → satIncr 255 v = v) ∧ (v < 255 → satIncr 255 v = v + 1) ∧
    (w = 65535 → satIncr 65535 w = w) ∧ (w < 65535 → satIncr 65535 w = w + 1) ∧
    (satIncr 255)^[n] v = min (v + n) 255 ∧
    (satIncr 65535)^[m] w = min (w + m) 65535 := by
  refine ⟨?_, ?_, ?_, ?_, satIncr_iterate 255 n v h8, satIncr_iterate 65535 m w h16⟩
  · intro h; simp [satIncr, h]
  · intro h
    have hne : v ≠ 255 := Nat.ne_of_lt h
    simp [satIncr, hne, Nat.mod_eq_of_lt (by omega : v + 1 < 256)]
  · intro h; simp [satIncr, h]
  · intro h
    have hne : w ≠ 65535 := Nat.ne_of_lt h
    simp [satIncr, hne, Nat.mod_eq_of_lt (by omega : w + 1 < 65536)]

/-- C7 witness: a sample at 250 under 10 increments saturates at 255, a
sample at 65530 under 10 increments saturates at 65535. -/
theorem C7_saturating_accumulation_witness :
    ((250 : Nat) = 255 → satIncr 255 250 = 250) ∧
    (250 < 255 → satIncr 255 250 = 251) ∧
    ((65530 : Nat) = 65535 → satIncr 65535 65530 = 65530) ∧
    (65530 < 65535 → satIncr 65535 65530 = 65531) ∧
    (satIncr 255)^[10] 250 = min (250 + 10) 255 ∧
    (satIncr 65535)^[10] 65530 = min (65530 + 10) 65535 :=
  C7_saturating_accumulation 250 65530 10 10 (by decide) (by decide)

-- ------------------------------------------------------------------
-- C3
-- ------------------------------------------------------------------

set_option maxRecDepth 100000 in
/-- C3 refutation: record processing is not total.  After a line end carrying
the same timestamp as the preceding line start, `pixel_dwelltime_ps_` is 0,
and the next in-frame photon makes `GetPixnumInLine` divide by zero
(modelled as `none`). -/
theorem C3_division_by_zero_reachable :
    ((translateAll cfg0 (startAcqReset st0, buf0) (traceC3.take 3)).map
        (fun s => s.1.pixel_dwelltime_ps)) = some 0 ∧
    processRecords cfg0 (startAcqReset st0, buf0, resetRates) traceC3 = none := by
  constructor
  · rfl
  · rfl

-- ------------------------------------------------------------------
-- C6
-- ------------------------------------------------------------------

set_option maxRecDepth 100000 in
/-- C6 refutation: the photon path of `TranslateRecord` never consults
`frame_active_`.  In the reachable state after `traceC6` the frame is
inactive with `current_line_ = 17`, yet a channel-5 photon is not dropped:
it reaches the pixel write at index `17 * 16 = 272`, beyond the `16 * 16`
allocated samples (modelled as `none`, an out-of-bounds store), instead of
leaving the buffer unchanged. -/
theorem C6_photon_not_dropped_when_frame_inactive :
    ((translateAll cfgSmall (startAcqReset st0, bufSmall) traceC6).map
        (fun s => (s.1.frame_active, s.1.current_line))) = some (false, 17) ∧
    ((translateAll cfgSmall (startAcqReset st0, bufSmall) traceC6).bind
        (fun s => TranslateRecord cfgSmall s.1 s.2 0x0A000005)) = none := by
  constructor
  · rfl
  · rfl

-- ------------------------------------------------------------------
-- C5
-- ------------------------------------------------------------------

/-- While no frame clock has been seen — frame inactive and line counter
negative — one record that is not a frame start keeps the frame inactive,
keeps the line counter negative, and leaves the pixel buffer untouched. -/
theorem TranslateRecord_no_frame_start (cfg : CamConfig) (st : AcqState)
    (buf : List Nat) (val : Nat)
    (hfa : st.frame_active = false) (hcl : st.current_line < 0)
    (hns : ¬((Interpret_TTTR val).special = true ∧
        ((Interpret_TTTR val).channel = 3 ∨ (Interpret_TTTR val).channel = 4)))
    (st2 : AcqState) (buf2 : List Nat)
    (h : TranslateRecord cfg st buf val = some (st2, buf2)) :
    st2.frame_active = false ∧ st2.current_line < 0 ∧ buf2 = buf := by
  have hcl2 : ¬ st.current_line ≥ 0 := by omega
  simp only [TranslateRecord, hfa, if_false, ite_self, hcl2] at h
  repeat' split at h
  all_goals simp_all only [Option.some.injEq, Prod.mk.injEq, reduceCtorEq]
  all_goals obtain ⟨h1, h2⟩ := h; subst h1; subst h2; simp_all

/-- Dispatching any batch that contains no frame-start marker from a state
with an inactive frame and a negative line counter leaves the pixel buffer
untouched. -/
theorem translateAll_no_frame_start (cfg : CamConfig) :
    ∀ (records : List Nat) (st : AcqState) (buf : List Nat),
      st.frame_active = false → st.current_line < 0 →
      (∀ r ∈ records, ¬((Interpret_TTTR r).special = true ∧
          ((Interpret_TTTR r).channel = 3 ∨ (Interpret_TTTR r).channel = 4))) →
      ∀ out, translateAll cfg (st, buf) records = some out → out.2 = buf := by
  intro records
  induction records with
  | nil =>
    intro st buf _ _ _ out h
    simp only [translateAll, List.foldlM_nil, Option.pure_def,
      Option.some.injEq] at h
    rw [← h]
  | cons r rs ih =>
    intro st buf hfa hcl hnone out h
    simp only [translateAll, List.foldlM_cons] at h
    cases hstep : TranslateRecord cfg st buf r with
    | none => rw [hstep] at h; simp at h
    | some p =>
      rw [hstep] at h
      simp only [Option.bind_eq_bind, Option.some_bind] at h
      obtain ⟨hfa2, hcl2, hbuf2⟩ :=
        TranslateRecord_no_frame_start cfg st buf r hfa hcl
          (hnone r (List.mem_cons_self r rs)) p.1 p.2 (by simpa using hstep)
      have := ih p.1 p.2 hfa2 hcl2
        (fun x hx => hnone x (List.mem_cons_of_mem r hx)) out (by simpa using h)
      rw [this, hbuf2]

set_option maxRecDepth 100000 in
/-- C5: from the post-`start_acq` state, the marker sequence
[frame_start, line_start, photon, line_end, line_start, photon, line_end]
yields `current_line = 0` while the first photon is processed and
`current_line = 1` while the second is, with the frame active after every
record of the trace; a frame-start marker (channel 3 or 4) sets the line
counter to -1, activates the frame and increments the frame counter; and any
batch containing no frame start leaves the pixel buffer untouched. -/
theorem C5_frame_line_state_machine :
    ((translateAll cfgSmall (startAcqReset st0, bufSmall) (traceC5.take 2)).map
        (fun s => (s.1.current_line, s.1.frame_active))) = some (0, true) ∧
    ((translateAll cfgSmall (startAcqReset st0, bufSmall) (traceC5.take 5)).map
        (fun s => (s.1.current_line, s.1.frame_active))) = some (1, true) ∧
    ((List.range 7).all fun k =>
        ((translateAll cfgSmall (startAcqReset st0, bufSmall) (traceC5.take (k + 1))).map
            (fun s => s.1.frame_active)).getD false) = true ∧
    (∀ (cfg : CamConfig) (st : AcqState) (buf : List Nat) (val : Nat),
      (Interpret_TTTR val).special = true →
      ((Interpret_TTTR val).channel = 3 ∨ (Interpret_TTTR val).channel = 4) →
      TranslateRecord cfg st buf val =
        some ({ st with current_line := -1, frame_active := true,
                        n_frame_tracker := st.n_frame_tracker + 1 }, buf)) ∧
    (∀ (cfg : CamConfig) (st : AcqState) (buf : List Nat) (records : List Nat),
      (∀ r ∈ records, ¬((Interpret_TTTR r).special = true ∧
          ((Interpret_TTTR r).channel = 3 ∨ (Interpret_TTTR r).channel = 4))) →
      ∀ out, translateAll cfg (startAcqReset st, buf) records = some out →
        out.2 = buf) := by
  refine ⟨by rfl, by rfl, by rfl, ?_, ?_⟩
  · intro cfg st buf val hspec hch
    rcases hch with h3 | h4
    · simp [TranslateRecord, hspec, h3]
    · simp [TranslateRecord, hspec, h4]
  · intro cfg st buf records hnone out h
    exact translateAll_no_frame_start cfg records (startAcqReset st) buf rfl
      (by norm_num [startAcqReset]) hnone out h

/-- C5 witness: the frame-start transition evaluated on the constructor state
and the concrete frame clock `0x86000000`, and the no-frame-start drop
property evaluated on a batch holding one channel-5 photon. -/
theorem C5_frame_line_state_machine_witness :
    TranslateRecord cfg0 st0 [] 0x86000000 =
      some ({ st0 with current_line := -1, frame_active := true,
                       n_frame_tracker := st0.n_frame_tracker + 1 }, []) ∧
    (startAcqReset st0, ([] : List Nat)).2 = [] :=
  ⟨C5_frame_line_state_machine.2.2.2.1 cfg0 st0 [] 0x86000000 (by decide)
      (by decide),
   C5_frame_line_state_machine.2.2.2.2 cfg0 st0 [] [0x0A000005] (by decide)
      (startAcqReset st0, []) (by decide)⟩

-- ------------------------------------------------------------------
-- C4
-- ------------------------------------------------------------------

/-- Wrapping `uint64_t` subtraction agrees with `Nat` subtraction when the
subtrahend is no larger than the minuend and both fit in 64 bits. -/
theorem sub64_eq_sub (a b : Nat) (hb : b < 2 ^ 64) (hle : b ≤ a)
    (hd : a - b < 2 ^ 64) : sub64 a b = a - b := by
  unfold sub64 U64
  rw [Nat.mod_eq_of_lt hb]
  have h : a + 2 ^ 64 - b = (a - b) + 2 ^ 64 := by omega
  rw [h, Nat.add_mod_right, Nat.mod_eq_of_lt hd]

/-- C4 counterexample: with a 10 ps dwell time, the line started at 0 and the
default geometry (scan width 120, 2 beams, composite width 240), a photon at
timestamp 2600 ps computes `x = (2600 / 10) / 2 = 130`.  That exceeds the
line width 120, yet `GetPixnumInLine` returns 130 unclamped — outside the
claimed range `[0, scan_pixels_x - 1] = [0, 119]`. -/
theorem C4_no_scan_width_clamp :
    GetPixnumInLine cfg0 stC4 2600 0 = some 130 ∧
    cfg0.n_scanPixels_X ≤ 130 ∧
    ¬(0 ≤ (130 : Int) ∧ (130 : Int) ≤ (cfg0.n_scanPixels_X : Int) - 1) := by
  refine ⟨by rfl, by decide, by decide⟩

/-- C4 (amended): the in-line x coordinate is
`((timestamp - last_line_start_ps) / pixel_dwelltime_ps) / beams_x`, and the
clamp is against the composite width `cameraCCDXSize` (scan width times beam
count), not the per-beam scan width: the returned pixel is
`min (computed value) (cameraCCDXSize - 1)` and always lies in
`[0, cameraCCDXSize - 1]`. -/
theorem C4_pixel_clamp_composite_width (cfg : CamConfig) (st : AcqState)
    (ts lls : Nat) (hdw : st.pixel_dwelltime_ps ≠ 0) (hbx : 0 < cfg.n_beams_X)
    (hccd : 0 < cfg.cameraCCDXSize) (hlls : lls < 2 ^ 64) (hle : lls ≤ ts)
    (hdelta : ts - lls < 2 ^ 64)
    (hpn : (ts - lls) / st.pixel_dwelltime_ps < 2 ^ 31) :
    GetPixnumInLine cfg st ts lls =
      some (min (((ts - lls) / st.pixel_dwelltime_ps / cfg.n_beams_X : Nat) : Int)
        ((cfg.cameraCCDXSize : Int) - 1)) ∧
    ∀ r, GetPixnumInLine cfg st ts lls = some r →
      0 ≤ r ∧ r < (cfg.cameraCCDXSize : Int) := by
  have hsub : sub64 ts lls = ts - lls := sub64_eq_sub ts lls hlls hle hdelta
  have hbx0 : cfg.n_beams_X ≠ 0 := Nat.pos_iff_ne_zero.mp hbx
  have hi32 : toInt32 ((ts - lls) / st.pixel_dwelltime_ps) =
      (((ts - lls) / st.pixel_dwelltime_ps : Nat) : Int) := by
    unfold toInt32 U32
    have h1 : (ts - lls) / st.pixel_dwelltime_ps % 2 ^ 32 =
        (ts - lls) / st.pixel_dwelltime_ps :=
      Nat.mod_eq_of_lt (lt_trans hpn (by norm_num))
    rw [h1, if_pos hpn]
  have htdiv : (((ts - lls) / st.pixel_dwelltime_ps : Nat) : Int).tdiv
      (cfg.n_beams_X : Int) =
      (((ts - lls) / st.pixel_dwelltime_ps / cfg.n_beams_X : Nat) : Int) := rfl
  have hmain : GetPixnumInLine cfg st ts lls =
      some (min (((ts - lls) / st.pixel_dwelltime_ps / cfg.n_beams_X : Nat) : Int)
        ((cfg.cameraCCDXSize : Int) - 1)) := by
    simp only [GetPixnumInLine, hsub, hdw, hbx0, if_false, hi32, htdiv, ge_iff_le]
    by_cases hge : (cfg.cameraCCDXSize : Int) ≤
        (((ts - lls) / st.pixel_dwelltime_ps / cfg.n_beams_X : Nat) : Int)
    · rw [if_pos hge]
      congr 1
      omega
    · rw [if_neg hge]
      congr 1
      omega
  refine ⟨hmain, ?_⟩
  intro r hr
  rw [hmain] at hr
  have hre := Option.some.inj hr
  subst hre
  constructor
  · exact le_min (Int.natCast_nonneg _) (by omega)
  · exact lt_of_le_of_lt (min_le_right _ _) (by omega)

/-- C4 witness: the amended clamp evaluated at the counterexample input,
where the returned pixel is `min 130 239 = 130`. -/
theorem C4_pixel_clamp_composite_width_witness :
    GetPixnumInLine cfg0 stC4 2600 0 =
      some (min (((2600 - 0) / stC4.pixel_dwelltime_ps / cfg0.n_beams_X : Nat) : Int)
        ((cfg0.cameraCCDXSize : Int) - 1)) ∧
    ∀ r, GetPixnumInLine cfg0 stC4 2600 0 = some r →
      0 ≤ r ∧ r < (cfg0.cameraCCDXSize : Int) :=
  C4_pixel_clamp_composite_width cfg0 stC4 2600 0 (by decide) (by decide)
    (by decide) (by decide) (by decide) (by decide) (by decide)

-- ------------------------------------------------------------------
-- C8
-- ------------------------------------------------------------------

/-- C8: with a 2x3 beam array, the channel-to-beam-shift map
`channel ↦ ((5 - channel) / 3 * scan_x, (5 - channel) % 3 * scan_y)` is
injective on channels 0..5, lands inside the 2x3 beam grid, and hits every
grid cell — a bijection between the six channels and the six beam
positions. -/
theorem C8_beam_grid_bijection (cfg : CamConfig)
    (hbx : cfg.n_beams_X = 2) (hby : cfg.n_beams_Y = 3)
    (hsx : 0 < cfg.n_scanPixels_X) (hsy : 0 < cfg.n_scanPixels_Y) :
    (∀ c1 c2, c1 < 6 → c2 < 6 → beamShift cfg c1 = beamShift cfg c2 → c1 = c2) ∧
    (∀ c, c < 6 → ∃ i j, i < cfg.n_beams_X ∧ j < cfg.n_beams_Y ∧
        beamShift cfg c = (((i * cfg.n_scanPixels_X : Nat) : Int),
                           ((j * cfg.n_scanPixels_Y : Nat) : Int))) ∧
    (∀ i j, i < cfg.n_beams_X → j < cfg.n_beams_Y → ∃ c, c < 6 ∧
        beamShift cfg c = (((i * cfg.n_scanPixels_X : Nat) : Int),
                           ((j * cfg.n_scanPixels_Y : Nat) : Int))) := by
  have e : ∀ c : Nat, c < 6 →
      beamShift cfg c = ((((5 - c) / 3 * cfg.n_scanPixels_X : Nat) : Int),
                         (((5 - c) % 3 * cfg.n_scanPixels_Y : Nat) : Int)) := by
    intro c hc
    interval_cases c <;>
      simp [beamShift, hby, show Int.tdiv 5 3 = 1 by decide,
        show Int.tdiv 4 3 = 1 by decide, show Int.tdiv 3 3 = 1 by decide,
        show Int.tdiv 2 3 = 0 by decide, show Int.tdiv 1 3 = 0 by decide,
        show Int.tdiv 0 3 = 0 by decide, show Int.tmod 5 3 = 2 by decide,
        show Int.tmod 4 3 = 1 by decide, show Int.tmod 3 3 = 0 by decide,
        show Int.tmod 2 3 = 2 by decide, show Int.tmod 1 3 = 1 by decide,
        show Int.tmod 0 3 = 0 by decide]
  refine ⟨?_, ?_, ?_⟩
  · intro c1 c2 h1 h2 heq
    rw [e c1 h1, e c2 h2, Prod.mk.injEq] at heq
    obtain ⟨hx, hy⟩ := heq
    have hx2 : (5 - c1) / 3 * cfg.n_scanPixels_X =
        (5 - c2) / 3 * cfg.n_scanPixels_X := Nat.cast_inj.mp hx
    have hy2 : (5 - c1) % 3 * cfg.n_scanPixels_Y =
        (5 - c2) % 3 * cfg.n_scanPixels_Y := Nat.cast_inj.mp hy
    have hq : (5 - c1) / 3 = (5 - c2) / 3 :=
      Nat.eq_of_mul_eq_mul_right hsx hx2
    have hr : (5 - c1) % 3 = (5 - c2) % 3 :=
      Nat.eq_of_mul_eq_mul_right hsy hy2
    omega
  · intro c hc
    refine ⟨(5 - c) / 3, (5 - c) % 3, by omega, by omega, e c hc⟩
  · intro i j hi hj
    refine ⟨5 - (i * 3 + j), by omega, ?_⟩
    rw [e (5 - (i * 3 + j)) (by omega)]
    have hq : (5 - (5 - (i * 3 + j))) / 3 = i := by omega
    have hr : (5 - (5 - (i * 3 + j))) % 3 = j := by omega
    rw [hq, hr]

/-- C8 witness: the bijection evaluated on the constructor geometry
(2x3 beams, 120x80 scan points). -/
theorem C8_beam_grid_bijection_witness :
    (∀ c1 c2, c1 < 6 → c2 < 6 →
        beamShift cfg0 c1 = beamShift cfg0 c2 → c1 = c2) ∧
    (∀ c, c < 6 → ∃ i j, i < cfg0.n_beams_X ∧ j < cfg0.n_beams_Y ∧
        beamShift cfg0 c = (((i * cfg0.n_scanPixels_X : Nat) : Int),
                            ((j * cfg0.n_scanPixels_Y : Nat) : Int))) ∧
    (∀ i j, i < cfg0.n_beams_X → j < cfg0.n_beams_Y → ∃ c, c < 6 ∧
        beamShift cfg0 c = (((i * cfg0.n_scanPixels_X : Nat) : Int),
                            ((j * cfg0.n_scanPixels_Y : Nat) : Int))) :=
  C8_beam_grid_bijection cfg0 rfl rfl (by decide) (by decide)

-- ------------------------------------------------------------------
-- C9
-- ------------------------------------------------------------------

/-- C9 counterexample: the acquisition loop bumps `live_rates[chan]` for
every record whose channel field is below `MAX_N_CHANNELS`, special records
included.  Dispatching the special frame-start record `0x86000000` (channel
field 3) changes the rate table — it does not leave it unchanged. -/
theorem C9_special_record_counts_in_rates :
    ((acqStep cfg0 (st0, [], resetRates) 0x86000000).map (fun s => s.2.2)) =
      some (resetRates.set 3 1) ∧
    resetRates.set 3 1 ≠ resetRates := ⟨by rfl, by decide⟩

/-- C9 (amended): for every record the loop dispatches, `TranslateRecord` is
applied, and the rate-table entry of the record's 6-bit channel field is
incremented by one (in `unsigned int` arithmetic) whenever that field is
below the channel count `MAX_N_CHANNELS` — whether or not the record is
special — while a channel field at or above the count leaves the table
unchanged (silent no-op).  The loop's own channel extraction agrees with the
decoder's channel field. -/
theorem C9_rate_table_update (cfg : CamConfig) (st : AcqState)
    (buf rates : List Nat) (record : Nat) (out : AcqState × List Nat × List Nat)
    (h : acqStep cfg (st, buf, rates) record = some out) :
    (chanInRecord record < MAX_N_CHANNELS →
      out.2.2 = rates.set (chanInRecord record)
        ((rates.getD (chanInRecord record) 0 + 1) % U32)) ∧
    (MAX_N_CHANNELS ≤ chanInRecord record → out.2.2 = rates) ∧
    TranslateRecord cfg st buf record = some (out.1, out.2.1) ∧
    chanInRecord record = (Interpret_TTTR record).channel := by
  unfold acqStep at h
  cases htr : TranslateRecord cfg st buf record with
  | none => rw [htr] at h; simp at h
  | some p =>
    obtain ⟨st2, buf2⟩ := p
    rw [htr] at h
    simp only [Option.some.injEq] at h
    subst h
    refine ⟨?_, ?_, ?_, rfl⟩
    · intro hc
      simp only [if_pos hc]
    · intro hc
      have hc2 : ¬ chanInRecord record < MAX_N_CHANNELS := by omega
      simp only [if_neg hc2]
    · rfl

/-- C9 witness: the amended property evaluated on the ordinary channel-5
photon record `0x0A000007` dispatched in the constructor state, where the
rate table entry 5 is bumped to 1. -/
theorem C9_rate_table_update_witness :
    (chanInRecord 0x0A000007 < MAX_N_CHANNELS →
      (st0, ([] : List Nat), resetRates.set 5 1).2.2 =
        resetRates.set (chanInRecord 0x0A000007)
          ((resetRates.getD (chanInRecord 0x0A000007) 0 + 1) % U32)) ∧
    (MAX_N_CHANNELS ≤ chanInRecord 0x0A000007 →
      (st0, ([] : List Nat), resetRates.set 5 1).2.2 = resetRates) ∧
    TranslateRecord cfg0 st0 [] 0x0A000007 =
      some ((st0, ([] : List Nat), resetRates.set 5 1).1,
        (st0, ([] : List Nat), resetRates.set 5 1).2.1) ∧
    chanInRecord 0x0A000007 = (Interpret_TTTR 0x0A000007).channel :=
  C9_rate_table_update cfg0 st0 [] resetRates 0x0A000007
    (st0, [], resetRates.set 5 1) (by rfl)

-- ------------------------------------------------------------------
-- C10
-- ------------------------------------------------------------------

/-- C10 counterexample: for a pixel type that is neither "8bit" nor "16bit",
`ResizeImageBuffer` leaves `byteDepth` at its initial value 0 and resizes the
buffer to 0 bytes per sample — it does not default to 8-bit (1 byte). -/
theorem C10_unknown_pixel_type_depth_zero :
    ResizeImageBuffer { cfg0 with pixelType := "32bit" } = some (240, 240, 0) ∧
    byteDepthFor "32bit" ≠ 1 := ⟨by rfl, by decide⟩

/-- C10 (amended): `ResizeImageBuffer` maps an unsupported pixel type to byte
depth 0 with no defaulting and no report; the default-to-8-bit-and-report
behaviour lives in the `OnPixelType` property handler, whose `AfterSet`
branch resizes to 1 byte per sample, writes "8bit" back, sets the bit depth
to 8 and returns `ERR_UNKNOWN_MODE`. -/
theorem C10_depth_default_in_property_handler (pt : String)
    (h8 : pt ≠ "8bit") (h16 : pt ≠ "16bit") (cfg : CamConfig)
    (hpt : cfg.pixelType = pt) (hbin : cfg.binSize ≠ 0) :
    ResizeImageBuffer cfg =
      some (cfg.cameraCCDXSize / cfg.binSize, cfg.cameraCCDYSize / cfg.binSize, 0) ∧
    OnPixelTypeAfterSet pt =
      { resizeDepth := 1, propValue := "8bit", bitDepth := 8,
        ret := DeviceRet.errUnknownMode } := by
  constructor
  · simp [ResizeImageBuffer, hbin, byteDepthFor, hpt, h8, h16]
  · simp [OnPixelTypeAfterSet, h8, h16]

/-- C10 witness: the amended property evaluated at the unsupported pixel type
"32bit" under the constructor geometry. -/
theorem C10_depth_default_in_property_handler_witness :
    ResizeImageBuffer { cfg0 with pixelType := "32bit" } =
      some (({ cfg0 with pixelType := "32bit" } : CamConfig).cameraCCDXSize /
          ({ cfg0 with pixelType := "32bit" } : CamConfig).binSize,
        ({ cfg0 with pixelType := "32bit" } : CamConfig).cameraCCDYSize /
          ({ cfg0 with pixelType := "32bit" } : CamConfig).binSize, 0) ∧
    OnPixelTypeAfterSet "32bit" =
      { resizeDepth := 1, propValue := "8bit", bitDepth := 8,
        ret := DeviceRet.errUnknownMode } :=
  C10_depth_default_in_property_handler "32bit" (by decide) (by decide)
    { cfg0 with pixelType := "32bit" } rfl (by decide)
